import Mathlib

/-!
Shallow embedding of `process_sheet_data` from `Air-Coolers.py` (ACHE operating
envelope analyzer), together with proofs about the constraint-envelope analysis:
cleaning, per-row minimum and argmin, crossover detection, operating-point
extraction and the rendered summary text.  Spreadsheet numerics are modelled as
exact rationals; a cell is a number, a text string (with the value `float` or
`pd.to_numeric` would parse it to, when it parses), or an empty cell (NaN).
-/

namespace ACHE

/-- One spreadsheet cell as pandas sees it. -/
inductive Cell
  | num (q : ℚ)
  | text (s : String) (v : Option ℚ)
  | blank
  deriving DecidableEq

/-- `pd.to_numeric(column, errors='coerce')` on one cell: numbers and numeric
strings convert, everything else becomes NaN (`none`). -/
def Cell.toNumeric : Cell → Option ℚ
  | .num q => some q
  | .text _ v => v
  | .blank => none

/-- Python `float(cell)`: raises `ValueError` on a non-numeric string.  (Call
sites apply it only after `dropna`, so a blank cell never reaches it.) -/
def Cell.pyFloat : Cell → Except String ℚ
  | .num q => .ok q
  | .text _ (some q) => .ok q
  | .text s none => .error ("could not convert string to float: " ++ s)
  | .blank => .error "nan"

/-- Whether `float(cell)` succeeds. -/
def Cell.floatOk : Cell → Bool
  | .num _ => true
  | .text _ (some _) => true
  | _ => false

/-- Whether pandas `dropna` treats the cell as missing. -/
def Cell.isNa : Cell → Bool
  | .blank => true
  | _ => false

/-- Round the fraction `a / b` (with `a b : ℕ`, `b > 0`) to the nearest
natural number, ties to even — how Python formats floats. -/
def roundHalfEven (a b : ℕ) : ℕ :=
  let f := a / b
  let rem := a % b
  if 2 * rem < b then f
  else if b < 2 * rem then f + 1
  else if f % 2 = 0 then f else f + 1

/-- Zero-pad a numeral string on the left to length `n`. -/
def padZeros (n : ℕ) (s : String) : String :=
  String.mk (List.replicate (n - s.length) '0') ++ s

/-- Python fixed-point formatting `f"{x:.pf}"` with `p` fractional digits for
the rational value `x` (no decimal point when `p = 0`).  The rounded scaled
magnitude is `roundHalfEven (|num| * 10^p) den`. -/
def fmtFixed (prec : ℕ) (q : ℚ) : String :=
  let n : ℕ := roundHalfEven (q.num.natAbs * 10 ^ prec) q.den
  let sign := if q.num < 0 then "-" else ""
  if prec = 0 then sign ++ toString n
  else sign ++ toString (n / 10 ^ prec) ++ "." ++ padZeros prec (toString (n % 10 ^ prec))

/-- Number of decimal digits (up to the fuel) needed to write a fraction with
this reduced denominator exactly: multiplying by 10 divides the denominator by
`gcd den 10`. -/
def decLen : ℕ → ℕ → ℕ
  | 0, _ => 0
  | fuel + 1, den => if den = 1 then 0 else decLen fuel (den / Nat.gcd den 10) + 1

/-- Python `str()` of a float value: its decimal expansion, with at least one
fractional digit. -/
def floatStr (q : ℚ) : String := fmtFixed (max 1 (decLen 17 q.den)) q

/-- Python `str(cell)`. -/
def Cell.pyStr : Cell → String
  | .num q => floatStr q
  | .text s _ => s
  | .blank => "nan"

/-- A sheet's DataFrame: the column count and the rows, cells addressed
positionally. -/
structure DF where
  ncols : ℕ
  rows : List (List Cell)
  deriving DecidableEq

/-- One cleaned row of the four required columns. -/
structure Sample where
  Temperature_Inlet : ℚ
  Flowrate_Actual : ℚ
  Flowrate_PD_Limit : ℚ
  Flowrate_Momentum_Limit : ℚ
  deriving DecidableEq

/-- The three constraint curves, in the column order of the source
(`constraint_names = ['Actual Flowrate', 'Pressure Drop (PD)', 'Momentum']`). -/
inductive ConstraintKind
  | ActualFlow
  | PressureDrop
  | Momentum
  deriving DecidableEq

/-- The display name stored in the `Active_Constraint` column. -/
def constraintName : ConstraintKind → String
  | .ActualFlow => "Actual Flowrate"
  | .PressureDrop => "Pressure Drop (PD)"
  | .Momentum => "Momentum"

/-- Position of a constraint in the fixed column order. -/
def kindIdx : ConstraintKind → ℕ
  | .ActualFlow => 0
  | .PressureDrop => 1
  | .Momentum => 2

/-- The flow value of one constraint column at a sample. -/
def kindFlow (s : Sample) : ConstraintKind → ℚ
  | .ActualFlow => s.Flowrate_Actual
  | .PressureDrop => s.Flowrate_PD_Limit
  | .Momentum => s.Flowrate_Momentum_Limit

/-- `np.argmin` over a list: index of the first occurrence of the minimum. -/
def npArgmin : List ℚ → ℕ
  | [] => 0
  | x :: xs =>
      (xs.enum.foldl (fun b p => if p.2 < b.2 then (p.1 + 1, p.2) else b) ((0 : ℕ), x)).1

/-- Row-wise `DataFrame.min(axis=1)`. -/
def seriesMin : List ℚ → ℚ
  | [] => 0
  | x :: xs => xs.foldl min x

/-- The three flow columns of a sample, in source column order. -/
def flows (s : Sample) : List ℚ :=
  [s.Flowrate_Actual, s.Flowrate_PD_Limit, s.Flowrate_Momentum_Limit]

/-- `df['Flowrate_Constraint_Min']`. -/
def constraintMin (s : Sample) : ℚ := seriesMin (flows s)

/-- `constraint_names[np.argmin(...)]`, as the enumerated kind. -/
def activeConstraint (s : Sample) : ConstraintKind :=
  match npArgmin (flows s) with
  | 0 => .ActualFlow
  | 1 => .PressureDrop
  | _ => .Momentum

/-- One row of the frame after the two derived columns are added. -/
structure EnvRow where
  sample : Sample
  cmin : ℚ
  active : ConstraintKind
  deriving DecidableEq

/-- The constraint analysis applied to every cleaned row. -/
def envelopeRows (l : List Sample) : List EnvRow :=
  l.map fun s => ⟨s, constraintMin s, activeConstraint s⟩

/-- One raw row through `to_numeric` on the four required columns, then
`dropna`: kept only when all four fields are numeric. -/
def toSample (r : List Cell) : Option Sample :=
  match (r.getD 0 .blank).toNumeric, (r.getD 1 .blank).toNumeric,
        (r.getD 2 .blank).toNumeric, (r.getD 3 .blank).toNumeric with
  | some t, some a, some p, some m => some ⟨t, a, p, m⟩
  | _, _, _, _ => none

/-- The cleaned sample list of a sheet. -/
def cleanSamples (rows : List (List Cell)) : List Sample := rows.filterMap toSample

/-- Tail of the `shift(1)` comparison: keep a row iff its active constraint
differs from the previous original row's. -/
def changedAfter : ConstraintKind → List EnvRow → List EnvRow
  | _, [] => []
  | prev, x :: xs =>
      if x.active ≠ prev then x :: changedAfter x.active xs
      else changedAfter x.active xs

/-- `df[df['Active_Constraint'] != df['Active_Constraint'].shift(1)]`: row 0 is
always kept (its shifted neighbour is NaN). -/
def crossoverRows : List EnvRow → List EnvRow
  | [] => []
  | x :: xs => x :: changedAfter x.active xs

/-- The reported constraint shift. -/
structure CrossoverEvent where
  temperature : ℚ
  flow_at_shift : ℚ
  new_constraint : ConstraintKind
  deriving DecidableEq

/-- The text of the no-crossover branch. -/
def noShiftNote : String :=
  "Note: The overall limiting curve does not switch within the provided temperature range."

/-- The analysis block f-string.  The degree sign appears as the two characters
`¬∞` because those are the bytes the source file literally contains. -/
def shiftText (temp flow : ℚ) (k : ConstraintKind) : String :=
  "Constraint Shift Analysis:\n" ++
  "Limiting curve switches at Inlet Temperature: " ++ fmtFixed 1 temp ++ " ¬∞C\n" ++
  "Flowrate limit at shift: " ++ fmtFixed 0 flow ++ " kg/hr\n" ++
  "New limiting curve: " ++ constraintName k

/-- `crossover_rows.iloc[1]` when `len(crossover_rows) > 1`. -/
def crossoverEvent (env : List EnvRow) : Option CrossoverEvent :=
  let cr := crossoverRows env
  if 1 < cr.length then
    let r := cr.getD 1 ⟨⟨0, 0, 0, 0⟩, 0, .ActualFlow⟩
    some ⟨r.sample.Temperature_Inlet, r.cmin, r.active⟩
  else none

/-- The `analysis_text` value. -/
def analysisText (env : List EnvRow) : String :=
  match crossoverEvent env with
  | some e => shiftText e.temperature e.flow_at_shift e.new_constraint
  | none => noShiftNote

/-- One extracted operating point (`caseLabel` is the dict key `'case'`). -/
structure OpPoint where
  temperature : ℚ
  flowrate : ℚ
  caseLabel : String
  deriving DecidableEq

/-- The three trailing columns of each row. -/
def opTriples (df : DF) : List (Cell × Cell × Cell) :=
  df.rows.map fun r =>
    (r.getD (df.ncols - 3) .blank, r.getD (df.ncols - 2) .blank, r.getD (df.ncols - 1) .blank)

/-- `df[[t, f, c]].dropna()`. -/
def opDropna (l : List (Cell × Cell × Cell)) : List (Cell × Cell × Cell) :=
  l.filter fun t => !t.1.isNa && !t.2.1.isNa && !t.2.2.isNa

/-- The body of the `iterrows` loop: `float`, `float`, `str`, a raised
`ValueError` propagating out. -/
def mkOpPoint (t : Cell × Cell × Cell) : Except String OpPoint :=
  match t.1.pyFloat with
  | .error e => .error e
  | .ok temp =>
    match t.2.1.pyFloat with
    | .error e => .error e
    | .ok fl => .ok ⟨temp, fl, t.2.2.pyStr⟩

/-- The extraction loop, with `ValueError` propagating out of it. -/
def extractLoop : List (Cell × Cell × Cell) → Except String (List OpPoint)
  | [] => .ok []
  | t :: ts =>
    match mkOpPoint t with
    | .error e => .error e
    | .ok p =>
      match extractLoop ts with
      | .error e => .error e
      | .ok ps => .ok (p :: ps)

/-- The whole operating-point extraction of the `len(df.columns) >= 7` branch. -/
def extractOps (df : DF) : Except String (List OpPoint) :=
  extractLoop (opDropna (opTriples df))

/-- The scatter legend label `f'{case} ({temp:.1f}¬∞C, {flow:.0f} kg/hr)'`
(again with the file's literal degree bytes). -/
def opLabel (p : OpPoint) : String :=
  p.caseLabel ++ " (" ++ fmtFixed 1 p.temperature ++ "¬∞C, " ++
    fmtFixed 0 p.flowrate ++ " kg/hr)"

/-- Everything the function computes that downstream code can observe: the
derived frame columns, the crossover record, the summary text, and the plotted
operating points with their legend labels. -/
structure Output where
  envelope : List EnvRow
  event : Option CrossoverEvent
  text : String
  opPoints : List OpPoint
  opLegend : List String
  deriving DecidableEq

/-- The analysis after cleaning: envelope, crossover, text, point legend. -/
def analyzeRows (rows4 : List (List Cell)) (ops : List OpPoint) : Output :=
  let env := envelopeRows (cleanSamples rows4)
  { envelope := env
    event := crossoverEvent env
    text := analysisText env
    opPoints := ops
    opLegend := ops.map opLabel }

/-- The caller's frame after the in-place cleaning: four renamed coerced
columns, dropped rows, plus the two derived columns. -/
def mutatedRows (env : List EnvRow) : List (List Cell) :=
  env.map fun r =>
    [.num r.sample.Temperature_Inlet, .num r.sample.Flowrate_Actual,
     .num r.sample.Flowrate_PD_Limit, .num r.sample.Flowrate_Momentum_Limit,
     .num r.cmin, .text (constraintName r.active) none]

/-- `process_sheet_data`: the post-state of the caller's DataFrame, and either
the analysis output or the text of the caught exception.  With at least 7
columns the frame is rebound to a 4-column slice (a copy), so the caller's
frame survives; with exactly 4 it is mutated in place; otherwise the 4-name
column assignment raises before anything is mutated. -/
def process_sheet_data (df : DF) : DF × Except String Output :=
  if 7 ≤ df.ncols then
    match extractOps df with
    | .error e => (df, .error e)
    | .ok ops => (df, .ok (analyzeRows (df.rows.map (List.take 4)) ops))
  else if df.ncols = 4 then
    (⟨6, mutatedRows (envelopeRows (cleanSamples df.rows))⟩,
     .ok (analyzeRows df.rows []))
  else
    (df, .error "Length mismatch: Expected axis has a different number of elements than the 4 new values")

/-- Whether the sheet's result is the error branch. -/
def isError : Except String Output → Bool
  | .error _ => true
  | .ok _ => false

/-- The summary text of a run (empty for the error branch). -/
def textOf (r : DF × Except String Output) : String :=
  match r.2 with
  | .ok o => o.text
  | .error _ => ""

/-- The operating-point legend of a run. -/
def legendOf (r : DF × Except String Output) : List String :=
  match r.2 with
  | .ok o => o.opLegend
  | .error _ => []

/-- The envelope values of a run. -/
def cminsOf (r : DF × Except String Output) : List ℚ :=
  match r.2 with
  | .ok o => o.envelope.map fun x => x.cmin
  | .error _ => []

/-- The number of operating points of a run. -/
def opCountOf (r : DF × Except String Output) : ℕ :=
  match r.2 with
  | .ok o => o.opPoints.length
  | .error _ => 0

/-- The spec's worked example: rows `(20, 100, 120, 130)` and `(30, 90, 110, 70)`. -/
def exampleDF : DF :=
  ⟨4, [[.num 20, .num 100, .num 120, .num 130],
       [.num 30, .num 90, .num 110, .num 70]]⟩

/-- The output of the worked example. -/
def exampleOut : Output := analyzeRows exampleDF.rows []

/-! ### Structural lemmas -/

lemma process_ok_eq (df : DF) (out : Output)
    (h : (process_sheet_data df).2 = Except.ok out) :
    ∃ rows4 ops, out = analyzeRows rows4 ops := by
  unfold process_sheet_data at h
  by_cases h7 : 7 ≤ df.ncols
  · rw [if_pos h7] at h
    cases hx : extractOps df with
    | error e => rw [hx] at h; simp at h
    | ok ops => rw [hx] at h; simp at h; exact ⟨_, _, h.symm⟩
  · rw [if_neg h7] at h
    by_cases h4 : df.ncols = 4
    · rw [if_pos h4] at h; simp at h; exact ⟨_, _, h.symm⟩
    · rw [if_neg h4] at h; simp at h

lemma out_envelope_shape (df : DF) (out : Output)
    (h : (process_sheet_data df).2 = Except.ok out) :
    ∃ l, out.envelope = envelopeRows l := by
  obtain ⟨rows4, ops, rfl⟩ := process_ok_eq df out h
  exact ⟨cleanSamples rows4, rfl⟩

lemma out_event_eq (df : DF) (out : Output)
    (h : (process_sheet_data df).2 = Except.ok out) :
    out.event = crossoverEvent out.envelope := by
  obtain ⟨rows4, ops, rfl⟩ := process_ok_eq df out h
  rfl

lemma out_text_eq (df : DF) (out : Output)
    (h : (process_sheet_data df).2 = Except.ok out) :
    out.text = analysisText out.envelope := by
  obtain ⟨rows4, ops, rfl⟩ := process_ok_eq df out h
  rfl

/-! ### The argmin characterisation -/

lemma npArgmin_three (a p m : ℚ) :
    npArgmin [a, p, m] =
      if p < a then (if m < p then 2 else 1) else (if m < a then 2 else 0) := by
  simp only [npArgmin, List.enum, List.enumFrom, List.foldl]
  split_ifs <;> simp_all

lemma activeConstraint_eq (s : Sample) :
    activeConstraint s =
      if s.Flowrate_PD_Limit < s.Flowrate_Actual then
        (if s.Flowrate_Momentum_Limit < s.Flowrate_PD_Limit then .Momentum else .PressureDrop)
      else
        (if s.Flowrate_Momentum_Limit < s.Flowrate_Actual then .Momentum else .ActualFlow) := by
  unfold activeConstraint flows
  rw [npArgmin_three]
  split_ifs <;> rfl

lemma constraintMin_eq (s : Sample) :
    constraintMin s =
      min s.Flowrate_Actual (min s.Flowrate_PD_Limit s.Flowrate_Momentum_Limit) := by
  unfold constraintMin seriesMin flows
  simp only [List.foldl]
  rw [min_assoc]

lemma active_attains (s : Sample) :
    kindFlow s (activeConstraint s) = constraintMin s := by
  obtain ⟨t, a, p, m⟩ := s
  rw [activeConstraint_eq, constraintMin_eq]
  dsimp only
  split_ifs with h1 h2 h3
  · show m = min a (min p m)
    rw [min_eq_right h2.le, min_eq_right (h2.trans h1).le]
  · show p = min a (min p m)
    rw [min_eq_left (not_lt.mp h2), min_eq_right h1.le]
  · show m = min a (min p m)
    rw [min_eq_right (h3.trans_le (not_lt.mp h1)).le, min_eq_right h3.le]
  · show a = min a (min p m)
    rw [min_eq_left (le_min (not_lt.mp h1) (not_lt.mp h3))]

lemma active_first (s : Sample) (k : ConstraintKind)
    (hk : kindFlow s k = constraintMin s) :
    kindIdx (activeConstraint s) ≤ kindIdx k := by
  obtain ⟨t, a, p, m⟩ := s
  rw [constraintMin_eq] at hk
  rw [activeConstraint_eq]
  dsimp only at hk ⊢
  split_ifs with h1 h2 h3
  · have hc : min a (min p m) = m := by
      rw [min_eq_right h2.le, min_eq_right (h2.trans h1).le]
    rw [hc] at hk
    cases k with
    | ActualFlow => exfalso; simp only [kindFlow] at hk; linarith
    | PressureDrop => exfalso; simp only [kindFlow] at hk; linarith
    | Momentum => exact le_refl _
  · have hc : min a (min p m) = p := by
      rw [min_eq_left (not_lt.mp h2), min_eq_right h1.le]
    rw [hc] at hk
    cases k with
    | ActualFlow => exfalso; simp only [kindFlow] at hk; linarith
    | PressureDrop => exact le_refl _
    | Momentum => simp [kindIdx]
  · have hc : min a (min p m) = m := by
      rw [min_eq_right (h3.trans_le (not_lt.mp h1)).le, min_eq_right h3.le]
    rw [hc] at hk
    cases k with
    | ActualFlow => exfalso; simp only [kindFlow] at hk; linarith
    | PressureDrop =>
        exfalso; simp only [kindFlow] at hk
        have hpa := not_lt.mp h1
        linarith
    | Momentum => exact le_refl _
  · cases k <;> simp [kindIdx]

/-! ### Claims C1 and C2 -/

/-- Claim C1: for every cleaned sample row of a successful analysis, the
computed `Flowrate_Constraint_Min` equals the minimum of the three flows
`Flowrate_Actual`, `Flowrate_PD_Limit` and `Flowrate_Momentum_Limit`,
exactly. -/
theorem c1_constraint_min_is_min (df : DF) (out : Output)
    (h : (process_sheet_data df).2 = Except.ok out) :
    ∀ r ∈ out.envelope,
      r.cmin = min r.sample.Flowrate_Actual
        (min r.sample.Flowrate_PD_Limit r.sample.Flowrate_Momentum_Limit) := by
  obtain ⟨l, hl⟩ := out_envelope_shape df out h
  intro r hr
  rw [hl] at hr
  simp only [envelopeRows, List.mem_map] at hr
  obtain ⟨s, _, rfl⟩ := hr
  exact constraintMin_eq s

/-- Witness for C1 at the spec's worked example. -/
theorem c1_witness :
    (⟨⟨30, 90, 110, 70⟩, 70, .Momentum⟩ : EnvRow).cmin
      = min (90 : ℚ) (min 110 70) :=
  c1_constraint_min_is_min exampleDF exampleOut rfl _ (by decide)

/-- Claim C2: in every successful analysis, `Active_Constraint` is the argmin
of the three flows with ties broken by the fixed column order
{ActualFlow, PressureDrop, Momentum}: the active constraint attains the
minimum, no earlier column attains it, and in particular
`flow_actual == flow_pd_limit < flow_momentum_limit` yields `ActualFlow`,
never `PressureDrop`. -/
theorem c2_active_constraint_argmin (df : DF) (out : Output)
    (h : (process_sheet_data df).2 = Except.ok out) :
    ∀ r ∈ out.envelope,
      kindFlow r.sample r.active = r.cmin ∧
      (∀ k, kindFlow r.sample k = r.cmin → kindIdx r.active ≤ kindIdx k) ∧
      (r.sample.Flowrate_Actual = r.sample.Flowrate_PD_Limit ∧
         r.sample.Flowrate_PD_Limit < r.sample.Flowrate_Momentum_Limit →
       r.active = ConstraintKind.ActualFlow) := by
  obtain ⟨l, hl⟩ := out_envelope_shape df out h
  intro r hr
  rw [hl] at hr
  simp only [envelopeRows, List.mem_map] at hr
  obtain ⟨s, _, rfl⟩ := hr
  refine ⟨active_attains s, active_first s, ?_⟩
  rintro ⟨hap, hpm⟩
  show activeConstraint s = ConstraintKind.ActualFlow
  rw [activeConstraint_eq, if_neg (by rw [hap]; exact lt_irrefl _),
      if_neg (not_lt.mpr (hap ▸ hpm).le)]

/-- Witness for C2: the active constraint of the example's second row attains
the row minimum. -/
theorem c2_witness :
    kindFlow (⟨30, 90, 110, 70⟩ : Sample) ConstraintKind.Momentum = (70 : ℚ) :=
  (c2_active_constraint_argmin exampleDF exampleOut rfl
    ⟨⟨30, 90, 110, 70⟩, 70, .Momentum⟩ (by decide)).1

/-! ### Claim C3: crossover detection -/

lemma changedAfter_eq_nil (k : ConstraintKind) (l : List EnvRow)
    (hl : ∀ r ∈ l, r.active = k) : changedAfter k l = [] := by
  induction l generalizing k with
  | nil => rfl
  | cons x xs ih =>
      have hx : x.active = k := hl x (List.mem_cons_self x xs)
      unfold changedAfter
      rw [if_neg (by simp [hx])]
      exact ih x.active fun r hr => (hl r (List.mem_cons_of_mem x hr)).trans hx.symm

lemma crossoverEvent_of_short (env : List EnvRow)
    (h : (crossoverRows env).length < 2) : crossoverEvent env = none := by
  unfold crossoverEvent
  rw [if_neg (by omega)]

lemma crossoverEvent_of_second (env : List EnvRow) (r : EnvRow)
    (h : (crossoverRows env)[1]? = some r) :
    crossoverEvent env = some ⟨r.sample.Temperature_Inlet, r.cmin, r.active⟩ := by
  match hcr : crossoverRows env with
  | [] => rw [hcr] at h; simp at h
  | [x] => rw [hcr] at h; simp at h
  | x :: y :: t =>
      rw [hcr] at h
      simp only [List.getElem?_cons_succ, List.getElem?_cons_zero, Option.some.injEq] at h
      subst h
      unfold crossoverEvent
      rw [hcr, if_pos (by simp)]
      rfl

/-- Claim C3: the crossover scan keeps the rows whose active constraint differs
from the previous row's (row 0 always kept); with fewer than 2 such rows no
CrossoverEvent is reported — in particular a constant active constraint yields
none — and otherwise exactly the second such row is reported, with its inlet
temperature, its constraint minimum and its active constraint. -/
theorem c3_crossover_second_change (df : DF) (out : Output)
    (h : (process_sheet_data df).2 = Except.ok out) :
    ((crossoverRows out.envelope).length < 2 → out.event = none) ∧
    (∀ r, (crossoverRows out.envelope)[1]? = some r →
       out.event = some ⟨r.sample.Temperature_Inlet, r.cmin, r.active⟩) ∧
    ((∀ r ∈ out.envelope, ∀ r₂ ∈ out.envelope, r.active = r₂.active) →
       out.event = none) := by
  rw [out_event_eq df out h]
  refine ⟨crossoverEvent_of_short out.envelope,
          fun r hr => crossoverEvent_of_second out.envelope r hr, ?_⟩
  intro hconst
  apply crossoverEvent_of_short
  match henv : out.envelope with
  | [] => simp [crossoverRows]
  | x :: xs =>
      have : changedAfter x.active xs = [] := by
        apply changedAfter_eq_nil
        intro r hr
        rw [henv] at hconst
        exact hconst r (List.mem_cons_of_mem x hr) x (List.mem_cons_self x xs)
      simp [crossoverRows, this]

/-- Witness for C3 at the spec's worked example: the reported event is
(temperature 30, flow 70, Momentum). -/
theorem c3_witness :
    exampleOut.event = some ⟨30, 70, ConstraintKind.Momentum⟩ :=
  (c3_crossover_second_change exampleDF exampleOut rfl).2.1
    ⟨⟨30, 90, 110, 70⟩, 70, .Momentum⟩ (by decide)

/-! ### Claim C4: zero usable rows do not make the sheet fail -/

/-- A 4-column sheet whose single row has a non-numeric field everywhere, so
cleaning retains nothing. -/
def dfC4 : DF := ⟨4, [[.text "bad" none, .text "x" none, .blank, .num 1]]⟩

/-- Counterexample to C4 as stated: a table with zero samples after cleaning
is NOT reported as an error — the analysis returns a normal result. -/
theorem c4_counterexample :
    cleanSamples dfC4.rows = [] ∧ isError (process_sheet_data dfC4).2 = false := by
  decide

/-- Claim C4 (amended): with the four required columns present, a table that
cleans to zero samples does not fail; the analysis returns a normal result
with an empty envelope, no crossover, and the no-shift note. -/
theorem c4_empty_clean_no_error (df : DF) (h4 : df.ncols = 4)
    (h0 : cleanSamples df.rows = []) :
    (process_sheet_data df).2 = Except.ok ⟨[], none, noShiftNote, [], []⟩ := by
  unfold process_sheet_data
  rw [if_neg (by omega), if_pos h4]
  unfold analyzeRows
  rw [h0]
  rfl

/-- Witness for C4 (amended) at the concrete all-non-numeric sheet. -/
theorem c4_witness :
    (process_sheet_data dfC4).2 = Except.ok ⟨[], none, noShiftNote, [], []⟩ :=
  c4_empty_clean_no_error dfC4 rfl (by decide)

/-! ### Claim C5: no safe/unsafe classification exists -/

/-- A 7-column sheet whose single operating point (flow 1000000) lies far above
the envelope (minimum 100). -/
def dfC5 : DF :=
  ⟨7, [[.num 20, .num 100, .num 120, .num 130, .num 20, .num 1000000, .text "Case 1" none]]⟩

/-- The same operating point against a far larger envelope, under which the
point would be safe. -/
def dfC5big : DF :=
  ⟨7, [[.num 20, .num 2000000, .num 3000000, .num 4000000,
        .num 20, .num 1000000, .text "Case 1" none]]⟩

/-- Claim C5 fails on the code: the only rendering of an operating point is
the legend label with case, temperature and flowrate; a point whose flowrate
(1000000) exceeds the envelope value (100) gets exactly the same rendering as
under an envelope it satisfies, so no safe/unsafe determination is made
anywhere in the output. -/
theorem c5_no_safety_classification :
    legendOf (process_sheet_data dfC5) = ["Case 1 (20.0¬∞C, 1000000 kg/hr)"] ∧
    cminsOf (process_sheet_data dfC5) = [100] ∧
    (100 : ℚ) < 1000000 ∧
    legendOf (process_sheet_data dfC5big) = legendOf (process_sheet_data dfC5) := by
  refine ⟨by decide, by decide, by decide, by decide⟩

/-! ### Claim C6: malformed operating-point rows -/

/-- A 7-column sheet whose operating-temperature cell is the non-numeric,
non-missing string "abc". -/
def dfC6 : DF :=
  ⟨7, [[.num 20, .num 100, .num 120, .num 130,
        .text "abc" none, .num 70000, .text "Case 1" none]]⟩

/-- Counterexample to C6 as stated: a present non-numeric operating-point
field is not silently excluded — `float` raises and the whole sheet's
analysis fails. -/
theorem c6_counterexample :
    isError (process_sheet_data dfC6).2 = true ∧
    (process_sheet_data dfC6).2 = Except.error "could not convert string to float: abc" :=
  ⟨by decide, rfl⟩

lemma mkOpPoint_isOk (t : Cell × Cell × Cell)
    (h1 : t.1.floatOk = true) (h2 : t.2.1.floatOk = true) :
    ∃ p, mkOpPoint t = Except.ok p := by
  obtain ⟨c1, c2, c3⟩ := t
  unfold mkOpPoint
  match c1, h1 with
  | .num q, _ =>
      match c2, h2 with
      | .num q₂, _ => exact ⟨_, rfl⟩
      | .text s (some q₂), _ => exact ⟨_, rfl⟩
  | .text s (some q), _ =>
      match c2, h2 with
      | .num q₂, _ => exact ⟨_, rfl⟩
      | .text s₂ (some q₂), _ => exact ⟨_, rfl⟩

lemma mkOpPoint_isError (t : Cell × Cell × Cell)
    (h : t.1.floatOk = false ∨ t.2.1.floatOk = false) :
    ∃ e, mkOpPoint t = Except.error e := by
  obtain ⟨c1, c2, c3⟩ := t
  unfold mkOpPoint
  rcases h with h | h
  · match c1, h with
    | .text s none, _ => exact ⟨_, rfl⟩
    | .blank, _ => exact ⟨_, rfl⟩
  · match c1 with
    | .num q =>
        match c2, h with
        | .text s none, _ => exact ⟨_, rfl⟩
        | .blank, _ => exact ⟨_, rfl⟩
    | .text s none => exact ⟨_, rfl⟩
    | .text s (some q) =>
        match c2, h with
        | .text s₂ none, _ => exact ⟨_, rfl⟩
        | .blank, _ => exact ⟨_, rfl⟩
    | .blank => exact ⟨_, rfl⟩

lemma extractLoop_ok (l : List (Cell × Cell × Cell))
    (hl : ∀ t ∈ l, t.1.floatOk = true ∧ t.2.1.floatOk = true) :
    ∃ ps, extractLoop l = Except.ok ps ∧ ps.length = l.length := by
  induction l with
  | nil => exact ⟨[], rfl, rfl⟩
  | cons t ts ih =>
      obtain ⟨h1, h2⟩ := hl t (List.mem_cons_self t ts)
      obtain ⟨p, hp⟩ := mkOpPoint_isOk t h1 h2
      obtain ⟨ps, hps, hlen⟩ := ih fun u hu => hl u (List.mem_cons_of_mem t hu)
      refine ⟨p :: ps, ?_, by simp [hlen]⟩
      unfold extractLoop
      rw [hp, hps]

lemma extractLoop_error (l : List (Cell × Cell × Cell))
    (hl : ∃ t ∈ l, t.1.floatOk = false ∨ t.2.1.floatOk = false) :
    ∃ e, extractLoop l = Except.error e := by
  induction l with
  | nil => simp at hl
  | cons t ts ih =>
      rcases hl with ⟨u, hu, hbad⟩
      rcases List.mem_cons.mp hu with rfl | hu
      · obtain ⟨e, he⟩ := mkOpPoint_isError u hbad
        refine ⟨e, ?_⟩
        unfold extractLoop
        rw [he]
      · cases hp : mkOpPoint t with
        | error e => exact ⟨e, by unfold extractLoop; rw [hp]⟩
        | ok p =>
            obtain ⟨e, he⟩ := ih ⟨u, hu, hbad⟩
            refine ⟨e, ?_⟩
            unfold extractLoop
            rw [hp, he]

/-- Claim C6 (amended): in a sheet with at least 7 columns, operating-point
rows with a missing (NaN) field are silently excluded by `dropna` — when all
surviving rows parse, the sheet succeeds and retains exactly the surviving
rows (a malformed case label is harmless, it is merely stringified) — but a
row that survives `dropna` with a non-numeric text value in the temperature or
flowrate field makes the whole sheet's analysis fail. -/
theorem c6_op_row_errors (df : DF) (h7 : 7 ≤ df.ncols) :
    ((∀ t ∈ opDropna (opTriples df), t.1.floatOk = true ∧ t.2.1.floatOk = true) →
       isError (process_sheet_data df).2 = false ∧
       opCountOf (process_sheet_data df) = (opDropna (opTriples df)).length) ∧
    ((∃ t ∈ opDropna (opTriples df), t.1.floatOk = false ∨ t.2.1.floatOk = false) →
       isError (process_sheet_data df).2 = true) := by
  constructor
  · intro hall
    obtain ⟨ps, hps, hlen⟩ := extractLoop_ok (opDropna (opTriples df)) hall
    have hx : extractOps df = Except.ok ps := hps
    unfold process_sheet_data
    rw [if_pos h7, hx]
    exact ⟨rfl, hlen⟩
  · intro hbad
    obtain ⟨e, he⟩ := extractLoop_error (opDropna (opTriples df)) hbad
    have hx : extractOps df = Except.error e := he
    unfold process_sheet_data
    rw [if_pos h7, hx]
    rfl

/-- A 7-column sheet with one complete operating-point row and one whose three
operating cells are all missing. -/
def dfC6ok : DF :=
  ⟨7, [[.num 20, .num 100, .num 120, .num 130, .num 116, .num 69700, .text "Case 1" none],
       [.num 30, .num 90, .num 110, .num 70, .blank, .blank, .blank]]⟩

/-- Witness for C6 (amended): the NaN row is dropped silently, the sheet
succeeds, and exactly the surviving operating row is retained. -/
theorem c6_witness :
    isError (process_sheet_data dfC6ok).2 = false ∧
    opCountOf (process_sheet_data dfC6ok) = (opDropna (opTriples dfC6ok)).length :=
  (c6_op_row_errors dfC6ok (by decide)).1 (by decide)

/-! ### Claim C7: the input frame is mutated -/

lemma process_four (df : DF) (h4 : df.ncols = 4) :
    process_sheet_data df =
      (⟨6, mutatedRows (envelopeRows (cleanSamples df.rows))⟩,
       Except.ok (analyzeRows df.rows [])) := by
  unfold process_sheet_data
  rw [if_neg (by omega), if_pos h4]

/-- Counterexample to C7 as stated: the analysis modifies its input — the
caller's 4-column frame comes back with 6 columns. -/
theorem c7_counterexample :
    (process_sheet_data exampleDF).1 ≠ exampleDF ∧
    exampleDF.ncols = 4 ∧ (process_sheet_data exampleDF).1.ncols = 6 := by
  decide

/-- Claim C7 (amended): the analysis is deterministic (a pure function of the
frame's value), but it is not side-effect free: a 4-column sheet is analysed
successfully while the caller's frame is mutated in place to 6 columns (the
coerced renamed columns plus the two derived ones), and re-running the
analysis on the mutated frame fails instead of yielding the same result. -/
theorem c7_mutates_input (df : DF) (h4 : df.ncols = 4) :
    isError (process_sheet_data df).2 = false ∧
    (process_sheet_data df).1.ncols = 6 ∧
    isError (process_sheet_data (process_sheet_data df).1).2 = true := by
  rw [process_four df h4]
  refine ⟨rfl, rfl, ?_⟩
  show isError (process_sheet_data ⟨6, _⟩).2 = true
  unfold process_sheet_data
  rw [if_neg (by simp), if_neg (by simp)]
  rfl

/-- Witness for C7 (amended) at the worked example. -/
theorem c7_witness :
    isError (process_sheet_data exampleDF).2 = false ∧
    (process_sheet_data exampleDF).1.ncols = 6 ∧
    isError (process_sheet_data (process_sheet_data exampleDF).1).2 = true :=
  c7_mutates_input exampleDF rfl

/-! ### Claim C8: the exact summary text -/

/-- Counterexample to C8 as stated: the rendered second line does not end in a
degree sign — the source file's literal bytes render as the two characters
`¬∞` before the `C`. -/
theorem c8_counterexample :
    textOf (process_sheet_data exampleDF) ≠
      "Constraint Shift Analysis:\nLimiting curve switches at Inlet Temperature: 30.0 °C\nFlowrate limit at shift: 70 kg/hr\nNew limiting curve: Momentum" ∧
    textOf (process_sheet_data exampleDF) =
      "Constraint Shift Analysis:\nLimiting curve switches at Inlet Temperature: 30.0 ¬∞C\nFlowrate limit at shift: 70 kg/hr\nNew limiting curve: Momentum" := by
  refine ⟨by decide, by decide⟩

/-- Claim C8 (amended): with a CrossoverEvent the summary is exactly the four
claimed lines except that the degree sign is rendered as the two characters
`¬∞` (the file's literal bytes); without one it is exactly the claimed note. -/
theorem c8_summary_text (df : DF) (out : Output)
    (h : (process_sheet_data df).2 = Except.ok out) :
    (∀ e, out.event = some e →
       out.text =
         "Constraint Shift Analysis:\n" ++
         "Limiting curve switches at Inlet Temperature: " ++
           fmtFixed 1 e.temperature ++ " ¬∞C\n" ++
         "Flowrate limit at shift: " ++ fmtFixed 0 e.flow_at_shift ++ " kg/hr\n" ++
         "New limiting curve: " ++ constraintName e.new_constraint) ∧
    (out.event = none →
       out.text =
         "Note: The overall limiting curve does not switch within the provided temperature range.") := by
  have ht := out_text_eq df out h
  have he := out_event_eq df out h
  constructor
  · intro e hev
    rw [ht]
    unfold analysisText
    rw [← he, hev]
    rfl
  · intro hev
    rw [ht]
    unfold analysisText
    rw [← he, hev]
    rfl

/-- Witness for C8 (amended): the full rendered text at the worked example. -/
theorem c8_witness :
    exampleOut.text =
      "Constraint Shift Analysis:\n" ++
      "Limiting curve switches at Inlet Temperature: " ++ fmtFixed 1 30 ++ " ¬∞C\n" ++
      "Flowrate limit at shift: " ++ fmtFixed 0 70 ++ " kg/hr\n" ++
      "New limiting curve: " ++ constraintName .Momentum :=
  (c8_summary_text exampleDF exampleOut rfl).1 ⟨30, 70, .Momentum⟩ (by decide)

/-! ### Claim C9: appending a non-numeric row changes nothing -/

lemma toSample_take4 (r : List Cell) : toSample (r.take 4) = toSample r := by
  match r with
  | [] => rfl
  | [a] => rfl
  | [a, b] => rfl
  | [a, b, c] => rfl
  | a :: b :: c :: d :: t => rfl

/-- Claim C9: appending a row with a non-numeric required field leaves the
cleaned sample list unchanged (so the count of retained samples never
increases), both directly and after the 4-column slice of the wide layout, and
for a 4-column sheet the entire analysis — every row's constraint minimum and
active constraint included — is unchanged. -/
theorem c9_nonnumeric_row_inert (rows : List (List Cell)) (r : List Cell)
    (h : toSample r = none) :
    cleanSamples (rows ++ [r]) = cleanSamples rows ∧
    cleanSamples ((rows ++ [r]).map (List.take 4)) =
      cleanSamples (rows.map (List.take 4)) ∧
    process_sheet_data ⟨4, rows ++ [r]⟩ = process_sheet_data ⟨4, rows⟩ := by
  have h₁ : cleanSamples (rows ++ [r]) = cleanSamples rows := by
    unfold cleanSamples
    rw [List.filterMap_append]
    simp [h]
  refine ⟨h₁, ?_, ?_⟩
  · unfold cleanSamples
    rw [List.map_append, List.filterMap_append]
    simp [toSample_take4, h]
  · rw [process_four ⟨4, rows ++ [r]⟩ rfl, process_four ⟨4, rows⟩ rfl]
    show ((⟨6, mutatedRows (envelopeRows (cleanSamples (rows ++ [r])))⟩ : DF),
          Except.ok (analyzeRows (rows ++ [r]) [])) =
         ((⟨6, mutatedRows (envelopeRows (cleanSamples rows))⟩ : DF),
          Except.ok (analyzeRows rows []))
    unfold analyzeRows
    rw [h₁]

/-- Witness for C9: appending a row whose second required field is the string
"oops" to the worked example. -/
theorem c9_witness :
    cleanSamples (exampleDF.rows ++ [[Cell.num 40, Cell.text "oops" none, Cell.num 1, Cell.num 2]]) =
      cleanSamples exampleDF.rows ∧
    cleanSamples ((exampleDF.rows ++ [[Cell.num 40, Cell.text "oops" none, Cell.num 1, Cell.num 2]]).map (List.take 4)) =
      cleanSamples (exampleDF.rows.map (List.take 4)) ∧
    process_sheet_data ⟨4, exampleDF.rows ++ [[Cell.num 40, Cell.text "oops" none, Cell.num 1, Cell.num 2]]⟩ =
      process_sheet_data ⟨4, exampleDF.rows⟩ :=
  c9_nonnumeric_row_inert exampleDF.rows
    [Cell.num 40, Cell.text "oops" none, Cell.num 1, Cell.num 2] (by decide)

/-! ### Claim C10: 5- and 6-column sheets always fail -/

/-- Claim C10: a sheet with exactly 5 or 6 columns always fails — the
operating-point block is only detected from 7 columns on, and assigning the
four required names to more than four remaining columns raises — and nothing
is mutated. -/
theorem c10_five_or_six_columns_fail (df : DF)
    (h : df.ncols = 5 ∨ df.ncols = 6) :
    isError (process_sheet_data df).2 = true ∧ (process_sheet_data df).1 = df := by
  unfold process_sheet_data
  rcases h with h | h <;> rw [if_neg (by omega), if_neg (by omega)] <;> exact ⟨rfl, rfl⟩

/-- Witness for C10 at a fully numeric 5-column sheet. -/
theorem c10_witness :
    isError (process_sheet_data ⟨5, [[.num 1, .num 2, .num 3, .num 4, .num 5]]⟩).2 = true ∧
    (process_sheet_data ⟨5, [[.num 1, .num 2, .num 3, .num 4, .num 5]]⟩).1 =
      ⟨5, [[.num 1, .num 2, .num 3, .num 4, .num 5]]⟩ :=
  c10_five_or_six_columns_fail ⟨5, [[.num 1, .num 2, .num 3, .num 4, .num 5]]⟩ (Or.inl rfl)

end ACHE
